import Mathlib

/-!
Verification of the version-resolution logic of `conanfile.py` (package
recipe `ImGuiImplD2D`).

The recipe's `set_version` method queries four external sources in order
(working-tree dirtiness, `git describe --tags`, the file `version.semver`,
the current commit id), each wrapped in a `try/except: pass` block, and
assigns `self.version` from the first source yielding a usable value.

We embed the method shallowly: the answers of the four external queries are
the fields of `GitState`, each an `Except Unit _` where `.error ()` stands
for any Python exception raised by the query. `set_version` becomes a total
function `GitState → Option String` returning the final value of
`self.version` (with `none` for "never assigned").

One fidelity note recorded where it matters: line 30 of `conanfile.py`
evaluates `datetime.datetime.utcnow()`, but the module `datetime` is never
imported by the file, so that expression raises `NameError` on every
execution and the surrounding bare `except` swallows it; see `utcnowStamp`.
-/

set_option maxRecDepth 4000

namespace ImGuiImplD2D

/-! ### The semantic-versioning pattern of line 37

Line 37 checks the (stripped) tag with `re.match` against

`^(0|[1-9]\d*)\.(0|[1-9]\d*)\.(0|[1-9]\d*)`
`(?:-((?:0|[1-9]\d*|\d*[a-zA-Z-][0-9a-zA-Z-]*)(?:\.(?:0|[1-9]\d*|\d*[a-zA-Z-][0-9a-zA-Z-]*))*))?`
`(?:\+([0-9a-zA-Z-]+(?:\.[0-9a-zA-Z-]+)*))?$`

(named groups elided). The embedding below is a direct structural
translation, using that the pattern is unambiguous:

* the core (`MAJOR.MINOR.PATCH`) contains only digits and dots, so in the
  part before any `+` the first `-`, if present, is necessarily the
  separator before the prerelease group;
* neither the part before a `+` nor a build-metadata segment may contain
  `+`, so a matching string contains at most one `+`, the separator;
* prerelease and build segments are nonempty and dot-free, so matching
  `seg(\.seg)*` is equivalent to splitting on `.` and checking every part;
* in `\d*[a-zA-Z-]...` the `\d*` must consume exactly the maximal leading
  digit run, because the following class accepts no digit.

`\d` is translated as an ASCII digit; `set_version` only ever feeds the
pattern whitespace-stripped tag strings, and all strings in this
development are ASCII, where Python's Unicode `\d` and `$`-before-final-
newline subtleties coincide with the ASCII full-anchored reading.
-/

/-- ASCII reading of the character class `\d`. -/
def isDigitChar (c : Char) : Bool :=
  '0' ≤ c && c ≤ '9'

/-- The character class `[a-zA-Z-]`. -/
def isLetterHyphen (c : Char) : Bool :=
  ('a' ≤ c && c ≤ 'z') || ('A' ≤ c && c ≤ 'Z') || c = '-'

/-- The character class `[0-9a-zA-Z-]`. -/
def isAlnumHyphen (c : Char) : Bool :=
  isDigitChar c || isLetterHyphen c

/-- The numeric-identifier alternative `0|[1-9]\d*` (no leading zero unless
the identifier is exactly `0`), read against a whole dot-separated
component. -/
def numIdent : List Char → Bool
  | [] => false
  | c :: cs =>
    if c = '0' then cs.isEmpty
    else ('1' ≤ c && c ≤ '9') && cs.all isDigitChar

/-- One prerelease segment: `0|[1-9]\d*|\d*[a-zA-Z-][0-9a-zA-Z-]*`. -/
def preSegIdent (cs : List Char) : Bool :=
  numIdent cs ||
    (match cs.dropWhile isDigitChar with
     | [] => false
     | c :: rest => isLetterHyphen c && rest.all isAlnumHyphen)

/-- One build-metadata segment: `[0-9a-zA-Z-]+`. -/
def buildSeg (cs : List Char) : Bool :=
  !cs.isEmpty && cs.all isAlnumHyphen

/-- The dotted core `(0|[1-9]\d*)\.(0|[1-9]\d*)\.(0|[1-9]\d*)`: exactly
three dot-separated numeric identifiers. -/
def coreIdent (cs : List Char) : Bool :=
  match cs.splitOn '.' with
  | [maj, minr, pat] => numIdent maj && numIdent minr && numIdent pat
  | _ => false

/-- The part of the pattern before any `+`: the core, optionally followed
by `-` and a dot-separated prerelease sequence. The core contains only
digits and dots, so the first `-` (if any) separates core from
prerelease. -/
def corePreIdent (cs : List Char) : Bool :=
  match cs.dropWhile (fun c => c != '-') with
  | [] => coreIdent cs
  | _ :: pre =>
    coreIdent (cs.takeWhile (fun c => c != '-')) &&
      (pre.splitOn '.').all preSegIdent

/-- Whether `re.match(pattern, s)` on line 37 succeeds (the pattern is
anchored on both sides, so this is a full match). -/
def semverMatch (s : String) : Bool :=
  match s.toList.splitOn '+' with
  | [l] => corePreIdent l
  | [l, b] => corePreIdent l && (b.splitOn '.').all buildSeg
  | _ => false

/-! ### Python string primitives

`str.strip()`, `str.startswith` and slicing are embedded as structural
functions on the character list, so that every resolver run reduces by
kernel computation. `str.strip()` with no argument removes leading and
trailing whitespace; the inputs handled here are ASCII, where that set is
space, `\t`, `\n`, `\v`, `\f`, `\r` (plus control separators that cannot
occur in the strings of this development).
-/

/-- ASCII whitespace as stripped by Python `str.strip()`. -/
def isSpaceChar (c : Char) : Bool :=
  c = ' ' || c = '\t' || c = '\n' || c = '\x0b' || c = '\x0c' || c = '\r'

/-- Python `s.strip()`: drop leading and trailing whitespace. -/
def strip (s : String) : String :=
  String.mk (((s.toList.dropWhile isSpaceChar).reverse.dropWhile isSpaceChar).reverse)

/-- Python `s.startswith("v")`. -/
def startsWithV (s : String) : Bool :=
  match s.toList with
  | c :: _ => decide (c = 'v')
  | [] => false

/-- Python `s[1:]`: drop the first character. -/
def dropFirst (s : String) : String :=
  String.mk (s.toList.drop 1)

/-! ### The `set_version` resolver -/

/-- Answers of the four external queries consulted by `set_version`:
`git.is_dirty()` (line 29), `git.run("describe --tags")` (line 34),
`load(self, "version.semver")` (line 43) and `git.get_commit()`
(line 48). `.error ()` stands for the query raising any exception. -/
structure GitState where
  is_dirty : Except Unit Bool
  describe : Except Unit String
  version_semver : Except Unit String
  get_commit : Except Unit String

/-- Evaluation of `datetime.datetime.utcnow().strftime('%Y%m%dT%H%M%S')`
on line 30. The module `datetime` is never imported by `conanfile.py`
(only `conan.*`, `re` and `os` are), so this expression raises `NameError`
on every execution; it is modelled as an unconditional error, caught by
the bare `except` of line 31. -/
def utcnowStamp : Except Unit String :=
  .error ()

/-- Lines 28-32: `try: if git.is_dirty(): self.version = "cci_%s" % ...`
with a bare `except: pass`. `v` is the value of `self.version` on entry
(always unset in the source). -/
def dirty_step (g : GitState) (v : Option String) : Option String :=
  match g.is_dirty with
  | .ok b =>
    if b then
      match utcnowStamp with
      | .ok ts => some (String.append "cci_" ts)
      | .error _ => v
    else v
  | .error _ => v

/-- Lines 34-36: strip the describe output, and if it starts with `v`,
drop that prefix and strip again. -/
def normalize_tag (t : String) : String :=
  let tag := strip t
  if startsWithV tag then strip (dropFirst tag) else tag

/-- Lines 47-51: `try: self.version = "rev_%s" % git.get_commit().strip();
return` with a bare `except: pass`, after which control reaches
`return None` (line 52), leaving `self.version` at `v`. -/
def commit_step (g : GitState) (v : Option String) : Option String :=
  match g.get_commit with
  | .ok c => some (String.append "rev_" (strip c))
  | .error _ => v

/-- Lines 42-46: `try: self.version = load(self, "version.semver").strip();
return` with a bare `except: pass` falling through to the commit step. -/
def file_step (g : GitState) (v : Option String) : Option String :=
  match g.version_semver with
  | .ok content => some (strip content)
  | .error _ => commit_step g v

/-- Lines 33-41: describe the current commit; on success normalize the tag
and, if it matches the pattern of line 37, finalize it; on exception or
pattern mismatch fall through to the version-file step. -/
def tag_step (g : GitState) (v : Option String) : Option String :=
  match g.describe with
  | .ok t =>
    let tag := normalize_tag t
    if semverMatch tag then some tag else file_step g v
  | .error _ => file_step g v

/-- Lines 26-52, `set_version`: the final value of `self.version` after
the method returns (with `none` for "never assigned"). Every external
query failure is caught by a bare `except`, so the function is total. -/
def set_version (g : GitState) : Option String :=
  tag_step g (dirty_step g none)

/-! ### Options schema and `configure` -/

/-- Lines 17-20: the `options` dictionary, mapping each option name to its
set of admissible values. Both declared options are boolean toggles. -/
def options : List (String × List Bool) :=
  [Prod.mk "shared" [true, false], Prod.mk "fPIC" [true, false]]

/-- Lines 21-24: the `default_options` dictionary. -/
def default_options : List (String × Bool) :=
  [Prod.mk "shared" false, Prod.mk "fPIC" true]

/-- Lines 57-59, `configure`:
`if self.settings.os == "Windows": del self.options.fPIC`. The deletion of
the `fPIC` entry is modelled by filtering it out of the option
dictionary. -/
def configure (os : String) (opts : List (String × List Bool)) : List (String × List Bool) :=
  if os = "Windows" then opts.filter (fun p => p.1 != "fPIC") else opts

/-! ### Helper lemmas shared by the claim theorems -/

/-- When the describe query raises, or its normalized result fails the
pattern of line 37, the tag step leaves the version untouched and control
reaches the version-file step. -/
theorem tag_step_fallthrough (g : GitState) (v : Option String)
    (htag : g.describe = .error () ∨
      ∃ t, g.describe = .ok t ∧ semverMatch (normalize_tag t) = false) :
    tag_step g v = file_step g v := by
  rcases htag with h | ⟨t, hd, hm⟩
  · simp [tag_step, h]
  · simp [tag_step, hd, hm]

/-- A successful read of `version.semver` finalizes its stripped content. -/
theorem file_step_ok (g : GitState) (v : Option String) (s : String)
    (h : g.version_semver = .ok s) : file_step g v = some (strip s) := by
  simp [file_step, h]

/-! ### Claim theorems -/

/-- Claim C1: with a clean tree (`is_dirty` answers `false`) and a describe
query answering the bare tag `v1.2.3`, the resolver returns `1.2.3` with
the `v` prefix stripped, whatever the version-file and commit queries would
answer — so neither of them is consulted. -/
theorem clean_bare_tag_resolves (f c : Except Unit String) :
    set_version ⟨.ok false, .ok "v1.2.3", f, c⟩ = some "1.2.3" := rfl

/-- Claim C2: every query failure is caught internally (`set_version` is a
total function of the query answers), and when the dirty, describe,
version-file and commit queries all fail the result is `none`, not an
error. -/
theorem all_queries_fail_yields_none (g : GitState)
    (h1 : g.is_dirty = .error ()) (h2 : g.describe = .error ())
    (h3 : g.version_semver = .error ()) (h4 : g.get_commit = .error ()) :
    set_version g = none := by
  simp [set_version, tag_step, dirty_step, file_step, commit_step, h1, h2, h3, h4]

/-- Claim C2, witness: the all-failing state resolves to `none`. -/
theorem all_queries_fail_yields_none_witness :
    set_version ⟨.error (), .error (), .error (), .error ()⟩ = none :=
  all_queries_fail_yields_none ⟨.error (), .error (), .error (), .error ()⟩ rfl rfl rfl rfl

/-- Claim C3, evaluated at the failing input: with the dirty query
succeeding and reporting `true` (and every later query failing), the code
does NOT set any `cci_<timestamp>` version — the result is `none` — because
line 30 evaluates `datetime.datetime.utcnow()` while `datetime` is never
imported, so the assignment raises `NameError` and the bare `except`
swallows it. -/
theorem dirty_timestamp_unreachable :
    dirty_step ⟨.ok true, .error (), .error (), .error ()⟩ none = none ∧
      set_version ⟨.ok true, .error (), .error (), .error ()⟩ = none :=
  ⟨rfl, rfl⟩

/-- Claim C4: the pattern of line 37 accepts `1.0.0-0`, rejects `1.0.0-01`
(leading zero in a numeric prerelease segment) and rejects `1.00.0`
(leading zero in a numeric core segment). -/
theorem semver_grammar_boundary :
    semverMatch "1.0.0-0" = true ∧ semverMatch "1.0.0-01" = false ∧
      semverMatch "1.00.0" = false :=
  ⟨rfl, rfl, rfl⟩

/-- Claim C5: when the describe query succeeds but its normalized result
fails the pattern of line 37, the tag step finalizes nothing and the
resolver's result is exactly that of the version-file step. -/
theorem tag_mismatch_falls_through (g : GitState) (t : String)
    (hd : g.describe = .ok t) (hm : semverMatch (normalize_tag t) = false) :
    set_version g = file_step g (dirty_step g none) := by
  have h1 : set_version g = tag_step g (dirty_step g none) := rfl
  rw [h1, tag_step_fallthrough g _ (Or.inr ⟨t, hd, hm⟩)]

/-- Claim C5, witness: the tag `release-7` fails the grammar and the
resolver falls through to the version-file step. -/
theorem tag_mismatch_falls_through_witness :
    semverMatch (normalize_tag "release-7") = false ∧
      set_version ⟨.error (), .ok "release-7", .ok "2.0.0", .error ()⟩ =
        file_step ⟨.error (), .ok "release-7", .ok "2.0.0", .error ()⟩
          (dirty_step ⟨.error (), .ok "release-7", .ok "2.0.0", .error ()⟩ none) :=
  ⟨rfl, tag_mismatch_falls_through _ "release-7" rfl rfl⟩

/-- Claim C6: when the tag step yields no valid version (describe raised,
or its normalized result fails the grammar) and `version.semver` reads as
`2.0.0-rc.1\n`, the resolver returns the stripped content `2.0.0-rc.1`,
whatever the commit query would answer. -/
theorem version_file_wins (g : GitState)
    (htag : g.describe = .error () ∨
      ∃ t, g.describe = .ok t ∧ semverMatch (normalize_tag t) = false)
    (hfile : g.version_semver = .ok "2.0.0-rc.1\n") :
    set_version g = some "2.0.0-rc.1" := by
  have h1 : set_version g = tag_step g (dirty_step g none) := rfl
  rw [h1, tag_step_fallthrough g _ htag, file_step_ok g _ _ hfile]
  rfl

/-- Claim C6, witness: describe raised, the file holds `2.0.0-rc.1\n`, and
the commit query (which would answer) is never used. -/
theorem version_file_wins_witness :
    set_version ⟨.error (), .error (), .ok "2.0.0-rc.1\n", .ok "deadbeef"⟩ =
      some "2.0.0-rc.1" :=
  version_file_wins ⟨.error (), .error (), .ok "2.0.0-rc.1\n", .ok "deadbeef"⟩
    (Or.inl rfl) rfl

/-- Claim C7: when the tag step yields no valid version, the version-file
read fails, and the commit query answers `h`, the resolver returns
`rev_<h stripped>`. -/
theorem commit_fallback (g : GitState) (h : String)
    (htag : g.describe = .error () ∨
      ∃ t, g.describe = .ok t ∧ semverMatch (normalize_tag t) = false)
    (hfile : g.version_semver = .error ())
    (hc : g.get_commit = .ok h) :
    set_version g = some (String.append "rev_" (strip h)) := by
  have h1 : set_version g = tag_step g (dirty_step g none) := rfl
  rw [h1, tag_step_fallthrough g _ htag]
  simp [file_step, hfile, commit_step, hc]

/-- Claim C7, witness: only the commit query succeeds, answering
`deadbeef\n`; the resolver returns `rev_deadbeef`. -/
theorem commit_fallback_witness :
    set_version ⟨.error (), .error (), .error (), .ok "deadbeef\n"⟩ =
      some "rev_deadbeef" :=
  commit_fallback ⟨.error (), .error (), .error (), .ok "deadbeef\n"⟩
    "deadbeef\n" (Or.inl rfl) rfl rfl

/-- Claim C8: two resolution runs over states giving identical answers to
the four external queries return identical results. The only
time-dependent expression of `set_version` (line 30's timestamp) raises
`NameError` on every run, so no input outside the four query answers can
influence the result. -/
theorem resolution_deterministic (g1 g2 : GitState)
    (h1 : g1.is_dirty = g2.is_dirty) (h2 : g1.describe = g2.describe)
    (h3 : g1.version_semver = g2.version_semver)
    (h4 : g1.get_commit = g2.get_commit) :
    set_version g1 = set_version g2 := by
  obtain ⟨a, b, c, d⟩ := g1
  obtain ⟨a2, b2, c2, d2⟩ := g2
  dsimp only at h1 h2 h3 h4
  subst h1
  subst h2
  subst h3
  subst h4
  rfl

/-- Claim C8, witness: two runs over one concrete state agree. -/
theorem resolution_deterministic_witness :
    set_version ⟨.ok false, .ok "v1.2.3", .error (), .error ()⟩ =
      set_version ⟨.ok false, .ok "v1.2.3", .error (), .error ()⟩ :=
  resolution_deterministic _ _ rfl rfl rfl rfl

/-- Claim C9: the recipe declares boolean toggles `shared` and `fPIC`, and
`configure` removes the `fPIC` option exactly when the target operating
system is Windows. -/
theorem fpic_deleted_iff_windows (os : String) :
    options.lookup "shared" = some [true, false] ∧
      options.lookup "fPIC" = some [true, false] ∧
      ((configure os options).lookup "fPIC" = none ↔ os = "Windows") := by
  refine ⟨rfl, rfl, ?_⟩
  by_cases h : os = "Windows"
  · subst h
    decide
  · have h2 : configure os options = options := if_neg h
    rw [h2]
    simp only [h, iff_false]
    decide

/-- Claim C10: a describe result carrying a distance/hash suffix, such as
`v1.2.3-4-gabcdef0`, passes the pattern of line 37 — the suffix
`4-gabcdef0` parses as a prerelease segment — so the resolver finalizes
`1.2.3-4-gabcdef0` at the tag step regardless of the other queries; no
bare-tag-only restriction is enforced. -/
theorem distance_suffix_accepted (d : Except Unit Bool) (f c : Except Unit String) :
    preSegIdent (String.toList "4-gabcdef0") = true ∧
      semverMatch "1.2.3-4-gabcdef0" = true ∧
      set_version ⟨d, .ok "v1.2.3-4-gabcdef0", f, c⟩ = some "1.2.3-4-gabcdef0" :=
  ⟨rfl, rfl, rfl⟩

end ImGuiImplD2D
